import Mathlib

/-!
Verification of the sequence-to-sequence Transformer core
(`src/models/transformer/base.py`) against its natural-language
specification.

Tensors are shallowly embedded as curried functions out of `Fin`-indexed
axes into `ℝ`; the shape of every tensor is carried by its type.  Stateful
`nn.Module` objects become structures holding their parameters, and each
`forward` method becomes a function of the module structure and its
inputs.  Dropout (an external `torch.nn` collaborator) is modelled by the
elementwise multiplication of the input with a caller-supplied coefficient
tensor: in evaluation mode the coefficients are all `1`, in training mode
the coefficient at each site is `m / (1 - p)` with `m ∈ {0, 1}` the
realized Bernoulli keep-mask — in both cases a nonnegative elementwise
scale, which is exactly the interface the proofs below use.  Fallible
steps (slicing plus broadcasting in `PositionalEncoding.forward`, the
construction-time assertion of `MultiheadAttention`) return `Option`.
-/

/-- A rank-3 tensor `[batch, seq, dim]` as in the source docstrings. -/
abbrev Tensor3 (b s d : ℕ) := Fin b → Fin s → Fin d → ℝ

/-- A rank-4 tensor `[batch, heads, seq, dim]` used inside attention. -/
abbrev Tensor4 (b h s d : ℕ) := Fin b → Fin h → Fin s → Fin d → ℝ

/-- A boolean attention mask of shape `[batch, len_q, len_k]`
(`true` = suppress this query/key pair). -/
abbrev Mask3 (b q k : ℕ) := Fin b → Fin q → Fin k → Bool

/-- A per-head boolean attention mask `[batch, heads, len_q, len_k]`. -/
abbrev Mask4 (b h q k : ℕ) := Fin b → Fin h → Fin q → Fin k → Bool

/-- Modelled from the spec: the collaborator `get_attn_pad_mask(seq_q, seq_k)`
is imported from `utils`, which is not part of the sources at hand.  Per
spec §6 it returns a boolean mask `[batch, len_q, len_k]`, `true` where a
key position is a designated padding token; the spec's end-to-end scenario
(§8) designates token id `0` as padding. -/
def get_attn_pad_mask {b lq lk : ℕ} (_seq_q : Fin b → Fin lq → ℕ)
    (seq_k : Fin b → Fin lk → ℕ) : Mask3 b lq lk :=
  fun bb _ j => decide (seq_k bb j = 0)

/-- Modelled from the spec: the collaborator `get_attn_subsequence_mask(seq)`
is imported from `utils`, which is not part of the sources at hand.  Per
spec §6 it returns a boolean mask `[batch, len, len]`, `true` where the key
index exceeds the query index (strict upper triangle). -/
def get_attn_subsequence_mask {b l : ℕ} (_seq : Fin b → Fin l → ℕ) : Mask3 b l l :=
  fun _ i j => decide (i.val < j.val)

/-- `TransformerDecoder.forward` lines 200–203: the decoder self-attention
mask `torch.gt(dec_self_attn_pad_mask + dec_self_attn_subsequence_mask, 0)`
— the two boolean masks are summed as numbers and compared against `0`. -/
def decSelfAttnMask {b l : ℕ} (dec_inputs : Fin b → Fin l → ℕ) : Mask3 b l l :=
  fun bb i j =>
    decide (0 < (if get_attn_pad_mask dec_inputs dec_inputs bb i j then 1 else 0)
      + (if get_attn_subsequence_mask dec_inputs bb i j then (1 : ℕ) else 0))

/-- `MultiheadAttention.__init__` (lines 63–70) reduced to its fallible
core: Python computes `head_dim = embed_dim // num_heads` (raising
`ZeroDivisionError` when `num_heads = 0`) and then
`assert head_dim * num_heads == embed_dim`.  On success the resulting
head width `head_dim` is returned. -/
def MultiheadAttention.init (embed_dim num_heads : ℕ) : Option ℕ :=
  if num_heads = 0 then none
  else if (embed_dim / num_heads) * num_heads = embed_dim then
    some (embed_dim / num_heads)
  else none

noncomputable section

/-- `torch.softmax` over the last axis, in exact real arithmetic:
`softmax x j = exp (x j) / ∑ t, exp (x t)`.  (The max-subtraction torch
performs internally is an algebraic identity over `ℝ`.) -/
def softmax {n : ℕ} (x : Fin n → ℝ) : Fin n → ℝ :=
  fun j => Real.exp (x j) / ∑ t, Real.exp (x t)

/-- A single dropout site: elementwise multiplication by the realized
coefficient tensor `c` (see the module docstring). -/
def dropout3 {b s d : ℕ} (c x : Tensor3 b s d) : Tensor3 b s d :=
  fun bb ss i => c bb ss i * x bb ss i

/-- `nn.Linear(din, dout, bias=False)` acting on the last axis:
`y_i = ∑ j, W i j * x j` (torch stores the weight as `[out, in]`). -/
def linearNoBias {b s din dout : ℕ} (W : Fin dout → Fin din → ℝ)
    (x : Tensor3 b s din) : Tensor3 b s dout :=
  fun bb ss i => ∑ j, W i j * x bb ss j

/-- `nn.Linear(din, dout)` with its default bias. -/
def linearB {b s din dout : ℕ} (W : Fin dout → Fin din → ℝ)
    (bias : Fin dout → ℝ) (x : Tensor3 b s din) : Tensor3 b s dout :=
  fun bb ss i => (∑ j, W i j * x bb ss j) + bias i

/-- `nn.ReLU` applied elementwise. -/
def relu3 {b s d : ℕ} (x : Tensor3 b s d) : Tensor3 b s d :=
  fun bb ss i => max (x bb ss i) 0

/-- Mean of a vector (over the last axis), as used by `nn.LayerNorm`. -/
def meanV {n : ℕ} (x : Fin n → ℝ) : ℝ := (∑ i, x i) / n

/-- Biased variance of a vector, as used by `nn.LayerNorm`. -/
def varV {n : ℕ} (x : Fin n → ℝ) : ℝ := (∑ i, (x i - meanV x) ^ 2) / n

/-- `nn.LayerNorm(n)` on one vector, with torch's default `eps = 1e-5`.
The source instantiates the layer freshly inside every forward call
(spec §9 flags this), so its affine parameters are always at their
initial values `γ = 1`, `β = 0` and are omitted. -/
def layerNormV {n : ℕ} (x : Fin n → ℝ) : Fin n → ℝ :=
  fun i => (x i - meanV x) / Real.sqrt (varV x + 1e-5)

/-- `nn.LayerNorm` over the last axis of a rank-3 tensor. -/
def layerNorm3 {b s d : ℕ} (x : Tensor3 b s d) : Tensor3 b s d :=
  fun bb ss => layerNormV (x bb ss)

/-- `PositionalEncoding.__init__` lines 18–19: `div_term[k] =
exp((2k) * (-log 10000 / d_model))` (the entries of `arange(0, d_model, 2)`
are the even numbers `2k`). -/
def divTerm (d_model k : ℕ) : ℝ :=
  Real.exp ((2 * k : ℕ) * (-(Real.log 10000) / d_model))

/-- `PositionalEncoding.__init__` lines 15–22: the sinusoidal table,
row `p`, even column `2k` is `sin(p * div_term[k])`, odd column `2k + 1`
is `cos(p * div_term[k])`.  (For odd `d_model` the source's strided
assignment would itself fail on a shape mismatch; the table is the
even-`d_model` one the spec describes.) -/
def peTable (d_model max_len : ℕ) : Fin max_len → Fin d_model → ℝ :=
  fun p j =>
    if j.val % 2 = 0 then Real.sin (p.val * divTerm d_model (j.val / 2))
    else Real.cos (p.val * divTerm d_model (j.val / 2))

/-- `PositionalEncoding.forward` lines 27–34, for an input of shape
`[batch, seq_len, d_model]` (the shape the source's own docstring states).
The stored table has shape `[max_len, 1, d_model]`, and the source
computes `x += pe[:x.size(0), :]` — a slice of length `min(x.size(0),
max_len)` rows where `x.size(0)` is the **batch** axis — followed by
dropout.  Python slicing clamps silently, and the subsequent broadcast of
`[k, 1, d_model]` against `[batch, seq_len, d_model]` succeeds iff
`k = batch` or `k = 1`; otherwise torch raises, modelled as `none`. -/
def PositionalEncoding.forward {b s d : ℕ} (max_len : ℕ)
    (pe : Fin max_len → Fin d → ℝ) (c : Tensor3 b s d) (x : Tensor3 b s d) :
    Option (Tensor3 b s d) :=
  if hb : b ≤ max_len then
    some (dropout3 c (fun bb ss i => x bb ss i + pe ⟨bb.val, lt_of_lt_of_le bb.isLt hb⟩ i))
  else if hm : max_len = 1 then
    some (dropout3 c (fun bb ss i => x bb ss i + pe ⟨0, by omega⟩ i))
  else none

/-- Modelled from the spec (§4.1), for comparison with
`PositionalEncoding.forward`: "given embeddings `x` of shape
`[batch, seq_len, d_model]`, returns `x + pe[:seq_len]` followed by
dropout", the table rows "added elementwise to the first `seq_len`
embedding positions"; `seq_len > max_len` "is an error condition (index
out of bounds) that must be surfaced, not silently truncated". -/
def PositionalEncoding.forwardSpec {b s d : ℕ} (max_len : ℕ)
    (pe : Fin max_len → Fin d → ℝ) (c : Tensor3 b s d) (x : Tensor3 b s d) :
    Option (Tensor3 b s d) :=
  if hs : s ≤ max_len then
    some (dropout3 c (fun bb ss i => x bb ss i + pe ⟨ss.val, lt_of_lt_of_le ss.isLt hs⟩ i))
  else none

/-- `MultiheadAttention.forward` line 97 first half:
`.view(b_s, -1, num_heads, d_k)` reinterprets the last axis of
`[batch, seq, heads*d_k]` row-major as `[batch, seq, heads, d_k]`. -/
def viewHeads {b s h dk : ℕ} (x : Tensor3 b s (h * dk)) :
    Fin b → Fin s → Fin h → Fin dk → ℝ :=
  fun bb ss hd k => x bb ss ⟨hd.val * dk + k.val, by
    calc hd.val * dk + k.val < hd.val * dk + dk := by omega
      _ = (hd.val + 1) * dk := by ring
      _ ≤ h * dk := Nat.mul_le_mul_right dk hd.isLt⟩

/-- `MultiheadAttention.forward` line 97 second half: `.transpose(1, 2)`
moves the head axis in front of the sequence axis. -/
def transposeHeads {b s h dk : ℕ} (y : Fin b → Fin s → Fin h → Fin dk → ℝ) :
    Tensor4 b h s dk :=
  fun bb hd ss k => y bb ss hd k

/-- The Q/K/V head split of `MultiheadAttention.forward` (lines 97–99):
view into `[batch, seq, heads, d_k]` then transpose axes 1 and 2. -/
def splitHeads {b s h dk : ℕ} (x : Tensor3 b s (h * dk)) : Tensor4 b h s dk :=
  transposeHeads (viewHeads x)

/-- `MultiheadAttention.forward` line 106 first half: `.transpose(1, 2)`
back to `[batch, seq, heads, d_k]`. -/
def untransposeHeads {b s h dk : ℕ} (z : Tensor4 b h s dk) :
    Fin b → Fin s → Fin h → Fin dk → ℝ :=
  fun bb ss hd k => z bb hd ss k

/-- `MultiheadAttention.forward` line 106 second half:
`.reshape(b_s, -1, embed_dim)` flattens `[heads, d_k]` back into the last
axis, element `d` coming from head `d / d_k`, inner index `d % d_k`. -/
def reshapeHeads {b s h dk : ℕ} (y : Fin b → Fin s → Fin h → Fin dk → ℝ) :
    Tensor3 b s (h * dk) :=
  fun bb ss d =>
    have hpos : 0 < dk := by
      have hlt := d.isLt
      rcases Nat.eq_zero_or_pos dk with h0 | h1
      · subst h0; simp at hlt
      · exact h1
    y bb ss ⟨d.val / dk, (Nat.div_lt_iff_lt_mul hpos).mpr d.isLt⟩
      ⟨d.val % dk, Nat.mod_lt _ hpos⟩

/-- The context merge of `MultiheadAttention.forward` (line 106):
transpose heads back behind the sequence axis, then reshape to
`[batch, seq, embed_dim]`. -/
def mergeHeads {b s h dk : ℕ} (z : Tensor4 b h s dk) : Tensor3 b s (h * dk) :=
  reshapeHeads (untransposeHeads z)

/-- `ScaleDotProductAttention.forward` line 51:
`scores = matmul(Q, K.transpose(-1, -2)) / np.sqrt(d_k)`. -/
def ScaleDotProductAttention.scores {b h sq sk dk : ℕ} (Q : Tensor4 b h sq dk)
    (K : Tensor4 b h sk dk) (d_k : ℕ) : Fin b → Fin h → Fin sq → Fin sk → ℝ :=
  fun bb hh i j => (∑ t, Q bb hh i t * K bb hh j t) / Real.sqrt d_k

/-- `ScaleDotProductAttention.forward` line 53:
`scores.masked_fill_(attn_mask, -1e9)` overwrites every masked score
with `-1e9`. -/
def ScaleDotProductAttention.maskedScores {b h sq sk dk : ℕ}
    (Q : Tensor4 b h sq dk) (K : Tensor4 b h sk dk) (attn_mask : Mask4 b h sq sk)
    (d_k : ℕ) : Fin b → Fin h → Fin sq → Fin sk → ℝ :=
  fun bb hh i j =>
    if attn_mask bb hh i j then (-1e9 : ℝ)
    else ScaleDotProductAttention.scores Q K d_k bb hh i j

/-- `ScaleDotProductAttention.forward` line 54:
`attn = torch.softmax(scores, dim=-1)`, the post-softmax attention
weight matrix. -/
def ScaleDotProductAttention.attn {b h sq sk dk : ℕ} (Q : Tensor4 b h sq dk)
    (K : Tensor4 b h sk dk) (attn_mask : Mask4 b h sq sk) (d_k : ℕ) :
    Fin b → Fin h → Fin sq → Fin sk → ℝ :=
  fun bb hh i => softmax (ScaleDotProductAttention.maskedScores Q K attn_mask d_k bb hh i)

/-- `ScaleDotProductAttention.forward` lines 51–58 in full:
`context = matmul(attn, V)`. -/
def ScaleDotProductAttention.forward {b h sq sk dk : ℕ} (Q : Tensor4 b h sq dk)
    (K : Tensor4 b h sk dk) (V : Tensor4 b h sk dk) (attn_mask : Mask4 b h sq sk)
    (d_k : ℕ) : Tensor4 b h sq dk :=
  fun bb hh i r =>
    ∑ j, ScaleDotProductAttention.attn Q K attn_mask d_k bb hh i j * V bb hh j r

/-- `MultiheadAttention.forward` line 101:
`attn_mask.unsqueeze(1).repeat(1, num_heads, 1, 1)` copies the 3-D mask
identically to every head. -/
def repeatMask {b sq sk : ℕ} (h : ℕ) (attn_mask : Mask3 b sq sk) : Mask4 b h sq sk :=
  fun bb _ i j => attn_mask bb i j

/-- `MultiheadAttention` (lines 62–85): the module's parameters.  The
source's `embed_dim` is `h * dk` and `num_heads` is `h`, so that the
construction-time divisibility assertion holds by typing and
`d_k = embed_dim // num_heads = dk`.  The `dropout` field is stored by
`__init__` (line 67). -/
structure MultiheadAttention (h dk : ℕ) where
  q_w : Fin (h * dk) → Fin (h * dk) → ℝ
  k_w : Fin (h * dk) → Fin (h * dk) → ℝ
  v_w : Fin (h * dk) → Fin (h * dk) → ℝ
  fc : Fin (h * dk) → Fin (h * dk) → ℝ
  dropout : ℝ

/-- The per-head post-softmax weight matrix arising inside
`MultiheadAttention.forward` (lines 97–104): project the query and key,
split heads, broadcast the mask per head, and take the
`ScaleDotProductAttention` weights. -/
def MultiheadAttention.attnWeights {h dk b sq sk : ℕ} (m : MultiheadAttention h dk)
    (query : Tensor3 b sq (h * dk)) (key : Tensor3 b sk (h * dk))
    (attn_mask : Mask3 b sq sk) : Fin b → Fin h → Fin sq → Fin sk → ℝ :=
  ScaleDotProductAttention.attn (splitHeads (linearNoBias m.q_w query))
    (splitHeads (linearNoBias m.k_w key)) (repeatMask h attn_mask) dk

/-- `MultiheadAttention.forward` (lines 87–112): project Q/K/V with the
bias-free linears, split heads, run scaled dot-product attention with the
per-head mask, merge heads, apply the output projection, add the *query*
tensor as residual, and layer-normalize (with a freshly instantiated
`nn.LayerNorm`, line 110). -/
def MultiheadAttention.forward {h dk b sq sk : ℕ} (m : MultiheadAttention h dk)
    (query : Tensor3 b sq (h * dk)) (key : Tensor3 b sk (h * dk))
    (value : Tensor3 b sk (h * dk)) (attn_mask : Mask3 b sq sk) :
    Tensor3 b sq (h * dk) :=
  let context := ScaleDotProductAttention.forward
    (splitHeads (linearNoBias m.q_w query)) (splitHeads (linearNoBias m.k_w key))
    (splitHeads (linearNoBias m.v_w value)) (repeatMask h attn_mask) dk
  let outputs := linearNoBias m.fc (mergeHeads context)
  layerNorm3 (fun bb ss i => outputs bb ss i + query bb ss i)

/-- `FeedForWard.__init__` (lines 116–125): the parameters of the two
(biased) linear layers, plus the dropout rate handed to the module's
`nn.Dropout` (the realized dropout coefficients are supplied at forward
time, see the module docstring). -/
structure FeedForWard (d fdim : ℕ) where
  w1 : Fin fdim → Fin d → ℝ
  b1 : Fin fdim → ℝ
  w2 : Fin d → Fin fdim → ℝ
  b2 : Fin d → ℝ
  dropoutRate : ℝ

/-- `FeedForWard.forward` (lines 127–133): the `nn.Sequential` of line
120–125 applies `Linear1`, then `Dropout`, then `ReLU`, then `Linear2`;
the input is added as residual and the result layer-normalized (with a
freshly instantiated `nn.LayerNorm`, line 131). -/
def FeedForWard.forward {d fdim b s : ℕ} (P : FeedForWard d fdim)
    (c : Tensor3 b s fdim) (x : Tensor3 b s d) : Tensor3 b s d :=
  let hidden := relu3 (dropout3 c (linearB P.w1 P.b1 x))
  layerNorm3 (fun bb ss i => linearB P.w2 P.b2 hidden bb ss i + x bb ss i)

/-- `TransformerDecoderLayer.__init__` (lines 171–176): two
`MultiheadAttention` sub-modules and a `FeedForWard` sub-module. -/
structure TransformerDecoderLayer (h dk fdim : ℕ) where
  dec_self_attn : MultiheadAttention h dk
  dec_enc_attn : MultiheadAttention h dk
  feedforward : FeedForWard (h * dk) fdim

/-- `TransformerDecoderLayer.__init__` (lines 172–176) as a constructor:
the freshly drawn projection weights are taken as arguments; both
attention sub-modules are constructed with the hardcoded `dropout=0.`
of lines 174–175, and only the feed-forward receives the configured
`dropout` (line 176). -/
def TransformerDecoderLayer.init {h dk fdim : ℕ}
    (q1 k1 v1 f1 q2 k2 v2 f2 : Fin (h * dk) → Fin (h * dk) → ℝ)
    (w1 : Fin fdim → Fin (h * dk) → ℝ) (b1 : Fin fdim → ℝ)
    (w2 : Fin (h * dk) → Fin fdim → ℝ) (b2 : Fin (h * dk) → ℝ)
    (dropout : ℝ) : TransformerDecoderLayer h dk fdim :=
  { dec_self_attn := ⟨q1, k1, v1, f1, 0⟩
    dec_enc_attn := ⟨q2, k2, v2, f2, 0⟩
    feedforward := ⟨w1, b1, w2, b2, dropout⟩ }

/-- `TransformerDecoderLayer.forward` (lines 178–183): self-attention over
the decoder input, then `self.dec_enc_attn(enc_inputs, output, output,
dec_enc_attn_mask)`, then feed-forward.  (`cFF` carries the realized
dropout coefficients of the feed-forward's dropout site.) -/
def TransformerDecoderLayer.forward {h dk fdim b s : ℕ}
    (L : TransformerDecoderLayer h dk fdim) (cFF : Tensor3 b s fdim)
    (dec_inputs enc_inputs : Tensor3 b s (h * dk))
    (dec_self_attn_mask dec_enc_attn_mask : Mask3 b s s) : Tensor3 b s (h * dk) :=
  let output := L.dec_self_attn.forward dec_inputs dec_inputs dec_inputs dec_self_attn_mask
  let output2 := L.dec_enc_attn.forward enc_inputs output output dec_enc_attn_mask
  L.feedforward.forward cFF output2

/-- The masked score matrix of the decoder's self-attention sublayer:
`MultiheadAttention` applied as on line 179 with the combined mask built
on lines 200–203. -/
def MultiheadAttention.decSelfScores {h dk b l : ℕ} (m : MultiheadAttention h dk)
    (dec_inputs : Fin b → Fin l → ℕ) (x : Tensor3 b l (h * dk)) :
    Fin b → Fin h → Fin l → Fin l → ℝ :=
  ScaleDotProductAttention.maskedScores (splitHeads (linearNoBias m.q_w x))
    (splitHeads (linearNoBias m.k_w x)) (repeatMask h (decSelfAttnMask dec_inputs)) dk

/-- The post-softmax weight matrix of the decoder's self-attention
sublayer: `MultiheadAttention.attnWeights` with query = key = the decoder
representation and the combined decoder self-attention mask. -/
def MultiheadAttention.decSelfWeights {h dk b l : ℕ} (m : MultiheadAttention h dk)
    (dec_inputs : Fin b → Fin l → ℕ) (x : Tensor3 b l (h * dk)) :
    Fin b → Fin h → Fin l → Fin l → ℝ :=
  m.attnWeights x x (decSelfAttnMask dec_inputs)

/-- Concrete sinusoidal table with `d_model = 2`, `max_len = 2`:
`pe p 0 = sin p`, `pe p 1 = cos p` (since `div_term[0] = exp 0 = 1`). -/
noncomputable def peT : Fin 2 → Fin 2 → ℝ := peTable 2 2

/-- Concrete all-zero embedding of shape `[batch=1, seq_len=2, d_model=2]`. -/
noncomputable def peC1x : Tensor3 1 2 2 := fun _ _ _ => 0

/-- Evaluation-mode dropout coefficients (all `1`) for `peC1x`. -/
noncomputable def peC1c : Tensor3 1 2 2 := fun _ _ _ => 1

/-- Concrete all-zero embedding of shape `[batch=1, seq_len=3, d_model=2]`,
whose sequence length `3` exceeds `max_len = 2`. -/
noncomputable def peC3x : Tensor3 1 3 2 := fun _ _ _ => 0

/-- Evaluation-mode dropout coefficients (all `1`) for `peC3x`. -/
noncomputable def peC3c : Tensor3 1 3 2 := fun _ _ _ => 1

/-- Concrete decoder token ids `[[0, 5?]]`, here `[[0, 1]]`: batch 1,
target length 2, with the token at position `0` being the padding id `0`,
so every key of query row `0` is suppressed (key 0 by the padding mask,
key 1 by the causal mask). -/
def cDecIds : Fin 1 → Fin 2 → ℕ := fun _ j => j.val

/-- A concrete single-head `MultiheadAttention` whose projection weights
are all zero — a reachable parameter setting, under which `Q = K = 0` and
every raw attention score is `0`. -/
noncomputable def cMHA : MultiheadAttention 1 1 :=
  ⟨fun _ _ => 0, fun _ _ => 0, fun _ _ => 0, fun _ _ => 0, 0⟩

/-- A concrete decoder representation of shape `[1, 2, 1]`. -/
noncomputable def cX : Tensor3 1 2 (1 * 1) := fun _ _ _ => 1

/-- Concrete `FeedForWard` parameters with `d_model = feed_forward_dim = 1`. -/
noncomputable def ffwP : FeedForWard 1 1 :=
  ⟨fun _ _ => 1, fun _ => 0, fun _ _ => 1, fun _ => 0, 0⟩

/-- Evaluation-mode dropout coefficients (all `1`) for the `ffwP` instance. -/
noncomputable def ffwC : Tensor3 1 1 1 := fun _ _ _ => 1

/-- A concrete input for the `ffwP` instance. -/
noncomputable def ffwX : Tensor3 1 1 1 := fun _ _ _ => 1

end

/-- Claim C1, code-bug evidence. The claim states that for an embedding
`x` of shape `[batch, seq_len, d_model]` with `seq_len ≤ max_len`,
`PositionalEncoding.forward x` returns `x + pe[:seq_len]` — table row `p`
added to sequence position `p` of every batch element — followed by
dropout.  The source instead slices the table by `x.size(0)`, the batch
axis, and broadcasts over the sequence axis.  At the failing input
(`x = 0`, batch 1, seq_len 2, d_model 2, max_len 2, dropout in evaluation
mode) the code yields `pe[0][0] = sin 0 = 0` at position `1`, while the
claimed result there is `pe[1][0] = sin 1 ≠ 0`. -/
theorem posenc_indexes_by_batch_not_position :
    (PositionalEncoding.forward 2 peT peC1c peC1x).map (fun f => f 0 1 0) = some 0
    ∧ (PositionalEncoding.forwardSpec 2 peT peC1c peC1x).map (fun f => f 0 1 0)
        = some (Real.sin 1)
    ∧ Real.sin 1 ≠ 0 := by
  refine ⟨?_, ?_, ?_⟩
  · simp [PositionalEncoding.forward, dropout3, peT, peTable, divTerm, peC1x, peC1c]
  · simp [PositionalEncoding.forwardSpec, dropout3, peT, peTable, divTerm, peC1x, peC1c]
  · exact ne_of_gt (Real.sin_pos_of_pos_of_lt_pi one_pos (by linarith [Real.pi_gt_three]))

/-- Claim C3, code-bug evidence. The claim states that whenever the
sequence length exceeds `max_len`, `PositionalEncoding.forward` raises an
error that is surfaced to the caller, never silently proceeding.  At
batch 1, seq_len 3, max_len 2 the source completes normally (`isSome`):
its slice `pe[:x.size(0)]` is indexed by the batch axis and Python slicing
clamps silently, so no bound is ever checked against the sequence length —
whereas the spec-modelled behavior (`forwardSpec`) is the error `none`. -/
theorem posenc_no_bounds_error :
    (PositionalEncoding.forward 2 peT peC3c peC3x).isSome = true
    ∧ PositionalEncoding.forwardSpec 2 peT peC3c peC3x = none := by
  constructor
  · simp [PositionalEncoding.forward]
  · simp [PositionalEncoding.forwardSpec]

/-- Claim C2, counterexample. The claim states that every post-softmax
decoder self-attention weight at key position `j >` query position `i` is
exactly zero.  With decoder token ids `[[0, 1]]` (position 0 is the
padding token) and zero projection weights, every key of query row `0` is
masked, every masked score is the same `-1e9`, and softmax of a constant
row is uniform: the weight at `i = 0`, `j = 1` is exactly `1/2`, not `0`
(the same value IEEE arithmetic produces, since `exp(-1e9 - (-1e9)) = 1`). -/
theorem dec_causal_weight_counterexample :
    cMHA.decSelfWeights cDecIds cX 0 0 0 1 = 1 / 2 ∧ ((1 : ℝ) / 2 ≠ 0) := by
  constructor
  · have hms : ∀ t : Fin 2, cMHA.decSelfScores cDecIds cX 0 0 0 t = -1e9 := by
      intro t
      fin_cases t <;>
        simp [MultiheadAttention.decSelfScores, ScaleDotProductAttention.maskedScores,
          repeatMask, decSelfAttnMask, get_attn_pad_mask, get_attn_subsequence_mask,
          cDecIds]
    have hw : cMHA.decSelfWeights cDecIds cX 0 0 0 1
        = Real.exp (cMHA.decSelfScores cDecIds cX 0 0 0 1)
          / ∑ t, Real.exp (cMHA.decSelfScores cDecIds cX 0 0 0 t) := rfl
    rw [hw, Fin.sum_univ_two, hms 0, hms 1]
    have hne : Real.exp (-1e9) ≠ 0 := Real.exp_ne_zero _
    field_simp
    ring
  · norm_num

/-- Claim C2, amended. For every decoder self-attention weight matrix
(arbitrary decoder token ids, projection weights and representation), at
query position `i` and key position `j > i` the masked pre-softmax score
is exactly `-1e9`, and the post-softmax weight equals
`exp(-1e9) / Z` with `Z` the row's sum of exponentials — in exact real
arithmetic strictly positive, hence never exactly zero (it is `1/seq_len`
when the whole row is masked, and reaches `0` only via floating-point
underflow when the row retains an unmasked key). -/
theorem dec_causal_weight_formula {h dk b l : ℕ} (m : MultiheadAttention h dk)
    (dec_inputs : Fin b → Fin l → ℕ) (x : Tensor3 b l (h * dk))
    (bb : Fin b) (hh : Fin h) (i j : Fin l) (hij : i.val < j.val) :
    m.decSelfScores dec_inputs x bb hh i j = -1e9
    ∧ m.decSelfWeights dec_inputs x bb hh i j
        = Real.exp (-1e9) / ∑ t, Real.exp (m.decSelfScores dec_inputs x bb hh i t)
    ∧ 0 < m.decSelfWeights dec_inputs x bb hh i j := by
  have hmask : decSelfAttnMask dec_inputs bb i j = true := by
    simp [decSelfAttnMask, get_attn_subsequence_mask, hij]
  have hsc : m.decSelfScores dec_inputs x bb hh i j = -1e9 := by
    simp [MultiheadAttention.decSelfScores, ScaleDotProductAttention.maskedScores,
      repeatMask, hmask]
  have hw : m.decSelfWeights dec_inputs x bb hh i j
      = Real.exp (m.decSelfScores dec_inputs x bb hh i j)
        / ∑ t, Real.exp (m.decSelfScores dec_inputs x bb hh i t) := rfl
  refine ⟨hsc, by rw [hw, hsc], ?_⟩
  rw [hw]
  exact div_pos (Real.exp_pos _)
    (Finset.sum_pos (fun t _ => Real.exp_pos _) ⟨j, Finset.mem_univ j⟩)

/-- Witness for `dec_causal_weight_formula` at the concrete instance
`cMHA`, `cDecIds`, `cX`, query `0`, key `1`. -/
theorem dec_causal_weight_formula_witness :
    ((0 : Fin 2) : Fin 2).val < ((1 : Fin 2) : Fin 2).val
    ∧ (cMHA.decSelfScores cDecIds cX 0 0 0 1 = -1e9
      ∧ cMHA.decSelfWeights cDecIds cX 0 0 0 1
          = Real.exp (-1e9) / ∑ t, Real.exp (cMHA.decSelfScores cDecIds cX 0 0 0 t)
      ∧ 0 < cMHA.decSelfWeights cDecIds cX 0 0 0 1) :=
  ⟨by decide, dec_causal_weight_formula cMHA cDecIds cX 0 0 0 1 (by decide)⟩

/-- Claim C4. In every call of `TransformerDecoderLayer.forward`, the
cross-attention sublayer `dec_enc_attn` receives the encoder output
`enc_inputs` as its first (query) argument and the decoder's
self-attention output as both its second (key) and third (value)
arguments — the inverted operand order the spec flags; moreover
`MultiheadAttention.forward` adds its query argument as the residual, so
the cross-attention sublayer's residual stream is the encoder output. -/
theorem dec_layer_cross_attn_operand_order {h dk fdim b s : ℕ}
    (L : TransformerDecoderLayer h dk fdim) (cFF : Tensor3 b s fdim)
    (dec_inputs enc_inputs : Tensor3 b s (h * dk))
    (m1 m2 : Mask3 b s s) :
    (L.forward cFF dec_inputs enc_inputs m1 m2 =
      L.feedforward.forward cFF
        (L.dec_enc_attn.forward enc_inputs
          (L.dec_self_attn.forward dec_inputs dec_inputs dec_inputs m1)
          (L.dec_self_attn.forward dec_inputs dec_inputs dec_inputs m1) m2))
    ∧ ∀ (m : MultiheadAttention h dk) (q : Tensor3 b s (h * dk))
        (k v : Tensor3 b s (h * dk)) (msk : Mask3 b s s),
        m.forward q k v msk = layerNorm3 (fun bb ss i =>
          linearNoBias m.fc (mergeHeads (ScaleDotProductAttention.forward
            (splitHeads (linearNoBias m.q_w q)) (splitHeads (linearNoBias m.k_w k))
            (splitHeads (linearNoBias m.v_w v)) (repeatMask h msk) dk)) bb ss i
          + q bb ss i) :=
  ⟨rfl, fun _ _ _ _ _ => rfl⟩

/-- Claim C5, code-bug evidence. The claim states that the configured
dropout probability is applied inside the attention computation.  In the
source it never is: `MultiheadAttention.forward` is unchanged under any
value of the stored `dropout` field (`ScaleDotProductAttention` contains
no dropout either), and `TransformerDecoderLayer.__init__` even hardcodes
`dropout=0.` for both of its attention sub-modules regardless of the
configured probability. -/
theorem attn_dropout_never_applied {h dk b sq sk : ℕ}
    (m : MultiheadAttention h dk) (r : ℝ) (q : Tensor3 b sq (h * dk))
    (k v : Tensor3 b sk (h * dk)) (attn_mask : Mask3 b sq sk) :
    (MultiheadAttention.forward { m with dropout := r } q k v attn_mask
        = m.forward q k v attn_mask)
    ∧ ∀ (fdim : ℕ) (q1 k1 v1 f1 q2 k2 v2 f2 : Fin (h * dk) → Fin (h * dk) → ℝ)
        (w1 : Fin fdim → Fin (h * dk) → ℝ) (b1 : Fin fdim → ℝ)
        (w2 : Fin (h * dk) → Fin fdim → ℝ) (b2 : Fin (h * dk) → ℝ) (p : ℝ),
        (TransformerDecoderLayer.init q1 k1 v1 f1 q2 k2 v2 f2 w1 b1 w2 b2 p).dec_self_attn.dropout = 0
        ∧ (TransformerDecoderLayer.init q1 k1 v1 f1 q2 k2 v2 f2 w1 b1 w2 b2 p).dec_enc_attn.dropout = 0 :=
  ⟨rfl, fun _ _ _ _ _ _ _ _ _ _ _ _ _ _ => ⟨rfl, rfl⟩⟩

/-- Elementwise nonnegative scaling commutes with `ReLU`: this is why the
source's `Linear → Dropout → ReLU → Linear` pipeline computes the spec's
`Linear → ReLU → Dropout → Linear` formula (every realized dropout
coefficient, `m / (1 - p)` in training or `1` in evaluation, is ≥ 0). -/
theorem relu3_dropout3_comm {b s d : ℕ} (c x : Tensor3 b s d)
    (hc : ∀ bb ss i, 0 ≤ c bb ss i) :
    relu3 (dropout3 c x) = dropout3 c (relu3 x) := by
  funext bb ss i
  simp only [relu3, dropout3]
  rw [mul_max_of_nonneg _ _ (hc bb ss i), mul_zero]

/-- Claim C6. For every input tensor and every realized (nonnegative)
dropout coefficient tensor, `FeedForWard.forward` returns
`LayerNorm(Linear2(Dropout(ReLU(Linear1(input)))) + input)`: although the
source composes `Dropout` *before* `ReLU`, the two commute because
dropout is a nonnegative elementwise scale, so the spec's formula — two
linear layers with ReLU and dropout between them, a residual around the
whole block, then layer normalization — holds exactly. -/
theorem feedforward_formula {d fdim b s : ℕ} (P : FeedForWard d fdim)
    (c : Tensor3 b s fdim) (x : Tensor3 b s d)
    (hc : ∀ bb ss i, 0 ≤ c bb ss i) :
    P.forward c x = layerNorm3 (fun bb ss i =>
      linearB P.w2 P.b2 (dropout3 c (relu3 (linearB P.w1 P.b1 x))) bb ss i
        + x bb ss i) := by
  simp only [FeedForWard.forward]
  rw [relu3_dropout3_comm _ _ hc]

/-- Witness for `feedforward_formula` at the concrete instance `ffwP`,
`ffwC`, `ffwX`. -/
theorem feedforward_formula_witness :
    (∀ (bb ss : Fin 1) (i : Fin 1), 0 ≤ ffwC bb ss i)
    ∧ ffwP.forward ffwC ffwX = layerNorm3 (fun bb ss i =>
        linearB ffwP.w2 ffwP.b2 (dropout3 ffwC (relu3 (linearB ffwP.w1 ffwP.b1 ffwX))) bb ss i
          + ffwX bb ss i) :=
  ⟨fun _ _ _ => zero_le_one, feedforward_formula ffwP ffwC ffwX (fun _ _ _ => zero_le_one)⟩

/-- Claim C7. For all `Q, K, V` of shape `[batch, heads, seq, d_k]` and
boolean mask, `ScaleDotProductAttention.forward` computes
`scores = Q·Kᵗ / sqrt(d_k)`, overwrites masked entries with `-1e9`, takes
softmax over the last axis, and returns `softmax(scores)·V`; the output
shape `[batch, heads, seq_q, d_k]` is the stated type.  The right-hand
side spells the resulting entry formula in closed form. -/
theorem sdpa_forward_formula {b h sq sk dk : ℕ} (Q : Tensor4 b h sq dk)
    (K : Tensor4 b h sk dk) (V : Tensor4 b h sk dk) (attn_mask : Mask4 b h sq sk)
    (d_k : ℕ) :
    ScaleDotProductAttention.forward Q K V attn_mask d_k = fun bb hh i r =>
      ∑ j, (Real.exp (if attn_mask bb hh i j then (-1e9 : ℝ)
              else (∑ t, Q bb hh i t * K bb hh j t) / Real.sqrt d_k)
            / ∑ u, Real.exp (if attn_mask bb hh i u then (-1e9 : ℝ)
              else (∑ t, Q bb hh i t * K bb hh u t) / Real.sqrt d_k))
          * V bb hh j r := by
  funext bb hh i r
  simp only [ScaleDotProductAttention.forward, ScaleDotProductAttention.attn,
    softmax, ScaleDotProductAttention.maskedScores, ScaleDotProductAttention.scores]

/-- Claim C8. The decoder self-attention mask built by
`TransformerDecoder.forward` — `torch.gt(pad_mask + subsequence_mask, 0)`,
the mask handed unchanged to every decoder layer — equals the elementwise
logical OR of the target-side padding mask and the strict upper-triangular
causal mask. -/
theorem dec_self_attn_mask_is_or {b l : ℕ} (dec_inputs : Fin b → Fin l → ℕ)
    (bb : Fin b) (i j : Fin l) :
    decSelfAttnMask dec_inputs bb i j =
      (get_attn_pad_mask dec_inputs dec_inputs bb i j
        || get_attn_subsequence_mask dec_inputs bb i j) := by
  simp only [decSelfAttnMask]
  cases hp : get_attn_pad_mask dec_inputs dec_inputs bb i j <;>
    cases hs : get_attn_subsequence_mask dec_inputs bb i j <;> simp

/-- Claim C9. For a positive head count, `MultiheadAttention` construction
succeeds iff `num_heads` divides `embed_dim` (otherwise the assertion
raises before any forward pass can run), and on success the head width is
`embed_dim / num_heads`. -/
theorem mha_init_divisibility (embed_dim num_heads : ℕ) (hpos : 0 < num_heads) :
    ((MultiheadAttention.init embed_dim num_heads).isSome ↔ num_heads ∣ embed_dim)
      ∧ ∀ hd, MultiheadAttention.init embed_dim num_heads = some hd →
          hd = embed_dim / num_heads := by
  constructor
  · simp only [MultiheadAttention.init, Nat.pos_iff_ne_zero.mp hpos, if_false]
    constructor
    · intro hsome
      by_cases hdvd : (embed_dim / num_heads) * num_heads = embed_dim
      · exact Dvd.intro_left _ hdvd
      · simp [hdvd] at hsome
    · intro hdvd
      simp [Nat.div_mul_cancel hdvd]
  · intro hd hinit
    simp only [MultiheadAttention.init, Nat.pos_iff_ne_zero.mp hpos, if_false] at hinit
    by_cases hdvd : (embed_dim / num_heads) * num_heads = embed_dim
    · simp [hdvd] at hinit; omega
    · simp [hdvd] at hinit

/-- Witness for `mha_init_divisibility` at `embed_dim = 8`,
`num_heads = 2`. -/
theorem mha_init_divisibility_witness :
    0 < 2 ∧ (((MultiheadAttention.init 8 2).isSome ↔ 2 ∣ 8)
      ∧ ∀ hd, MultiheadAttention.init 8 2 = some hd → hd = 8 / 2) :=
  ⟨by decide, mha_init_divisibility 8 2 (by decide)⟩

/-- Claim C10. Splitting the last axis of a projected
`[batch, seq, d_model]` tensor into `heads × d_k` (view then transpose,
exactly as `MultiheadAttention.forward` does for Q/K/V) and merging back
(transpose then reshape, as done for the context) reproduces the original
tensor exactly — no data loss or reordering. -/
theorem head_split_merge_roundtrip {b s h dk : ℕ} (x : Tensor3 b s (h * dk)) :
    mergeHeads (splitHeads x) = x := by
  funext bb ss d
  simp only [mergeHeads, splitHeads, reshapeHeads, untransposeHeads, transposeHeads,
    viewHeads]
  congr 1
  apply Fin.ext
  have h1 := Nat.div_add_mod d.val dk
  rw [Nat.mul_comm] at h1
  exact h1
